import Mathlib

/-!
# Verification of the dtm sub-transaction barrier (`dtmcli/barrier.go`)

A shallow embedding of `src/dtmcli/barrier.go`.  The barrier table
(`dtm_barrier.barrier`) is modelled as a list of rows; the SQL transaction
opened by `ThroughBarrierCall` is modelled as a list of pending write
operations that are applied to the committed rows on commit and discarded
on rollback.  External fallible collaborators (the database driver and the
business callback) are supplied through an explicit environment so that the
error paths of the Go code can be exercised.

Go machine integers appear only as row counts (`RowsAffected`, values 0/1),
modelled as `Int`.  Panics are modelled as an explicit outcome constructor.
-/

/-- One row of the `dtm_barrier.barrier` table.  Columns are those used by
`barrier.go`: `trans_type, gid, branch_id, branch_type, reason, result`,
with `result` nullable (`sql.NullString`).  Per the schema in the spec the
unique key is `(gid, branch_id, branch_type)`. -/
structure BarrierRow where
  transType : String
  gid : String
  branchID : String
  branchType : String
  reason : String
  result : Option String
deriving DecidableEq

/-- A pending write inside the open transaction: either the
`insert ignore into dtm_barrier.barrier(...)` of `insertBarrier`, or the
`update dtm_barrier.barrier set result=? where trans_type=? and gid=? and
branch_id=? and branch_type=?` issued after a successful business call
(note: the update filter has no `reason` column). -/
inductive WriteOp where
  | insertRow (r : BarrierRow)
  | updateResult (transType gid branchID branchType sval : String)
deriving DecidableEq

/-- Does a row for the unique key `(gid, branch_id, branch_type)` exist? -/
def hasRow (rows : List BarrierRow) (gid branchID branchType : String) : Bool :=
  rows.any fun r => r.gid == gid && r.branchID == branchID && r.branchType == branchType

/-- Apply one pending write to the committed rows.  `insertRow` keeps the
`insert ignore` semantics of the unique key; `updateResult` sets `result`
on every row matching the four-column filter of the Go `update`. -/
def applyOp (rows : List BarrierRow) (op : WriteOp) : List BarrierRow :=
  match op with
  | .insertRow r =>
      if hasRow rows r.gid r.branchID r.branchType then rows else rows ++ [r]
  | .updateResult t g b bt sval =>
      rows.map fun r =>
        if r.transType == t && r.gid == g && r.branchID == b && r.branchType == bt then
          ⟨r.transType, r.gid, r.branchID, r.branchType, r.reason, some sval⟩
        else r

/-- Apply a transaction's pending writes in order (commit). -/
def applyOps (rows : List BarrierRow) (ops : List WriteOp) : List BarrierRow :=
  ops.foldl applyOp rows

/-- The row, if any, matched by the five-column point query of
`ThroughBarrierCall` (`select result ... where trans_type=? and gid=? and
branch_id=? and branch_type=? and reason=?`). -/
def findBarrier (rows : List BarrierRow) (transType gid branchID branchType reason : String) :
    Option BarrierRow :=
  rows.find? fun r =>
    r.transType == transType && r.gid == gid && r.branchID == branchID &&
      r.branchType == branchType && r.reason == reason

/-- Result of the point query: `none` models `sql.ErrNoRows`; `some res`
models a found row whose `result` column is the `sql.NullString` `res`
(`res = none` is SQL NULL, i.e. `Valid == false`). -/
def lookupResult (rows : List BarrierRow) (transType gid branchID branchType reason : String) :
    Option (Option String) :=
  (findBarrier rows transType gid branchID branchType reason).map fun r => r.result

/-- The `TransInfo` struct of `barrier.go` (every branch info). -/
structure TransInfo where
  TransType : String
  Gid : String
  BranchID : String
  BranchType : String
deriving DecidableEq

/-- The `String()` method of `TransInfo`:
`fmt.Sprintf("transInfo: %s %s %s %s", ...)`. -/
def TransInfo.string (t : TransInfo) : String :=
  "transInfo: " ++ t.TransType ++ " " ++ t.Gid ++ " " ++ t.BranchID ++ " " ++ t.BranchType

/-- The function `TransInfoFromReq` reads the four query parameters `trans_type`, `gid`,
`branch_id`, `branch_type` from the request and panics
(`panic(fmt.Errorf("invlid trans info: %v", ti))`) when any is empty.
The gin request is modelled by its four query-parameter values and the
panic by `Except.error` carrying the panic message.  The Go function
touches no storage: it only reads the request. -/
def TransInfoFromReq (transType gid branchID branchType : String) :
    Except String TransInfo :=
  let ti : TransInfo := ⟨transType, gid, branchID, branchType⟩
  if ti.TransType = "" ∨ ti.Gid = "" ∨ ti.BranchID = "" ∨ ti.BranchType = "" then
    .error ("invlid trans info: " ++ ti.string)
  else
    .ok ti

/-- A Go interface value as far as the barrier manipulates one:
`nil`, a string, a `common.MS` (a string-to-string map) literal, or a
non-nil `error` value stored into an interface variable. -/
inductive GoValue where
  | nil
  | str (s : String)
  | ms (pairs : List (String × String))
  | errV (msg : String)
deriving DecidableEq

/-- The synthetic success payload: a `common.MS` map holding
`dtm_result: SUCCESS` (the `common` package is part of this repository but
not under src/; per the spec, `common.MS` is the fixed two-valued synthetic
disposition payload, a string map). -/
def dtmResultSuccess : GoValue := GoValue.ms [("dtm_result", "SUCCESS")]

/-- The synthetic failure payload: a `common.MS` map holding
`dtm_result: FAILURE`. -/
def dtmResultFailure : GoValue := GoValue.ms [("dtm_result", "FAILURE")]

/-- Result of one `insertBarrier` call: the transaction's pending writes
after the call, the affected-row count it returned, and its error. -/
structure ClaimRes where
  ops : List WriteOp
  affected : Int
  err : Option String
deriving DecidableEq

/-- The function `insertBarrier(tx, transType, gid, branchID, branchType, reason)`.
Returns `(0, nil)` immediately when `branchType == ""` (no storage
interaction).  Otherwise executes the `insert ignore`; `fault` injects the
driver error of that `Exec` (on error the Go code returns `(0, err)` and no
write happens).  With no fault, the insert is ignored (affected 0) when a
row for the unique key already exists in the transaction's view, and
appends the new row (affected 1) otherwise. -/
def insertBarrier (fault : Option String) (committed : List BarrierRow) (ops : List WriteOp)
    (transType gid branchID branchType reason : String) : ClaimRes :=
  if branchType = "" then ⟨ops, 0, none⟩
  else
    match fault with
    | some e => ⟨ops, 0, some e⟩
    | none =>
      if hasRow (applyOps committed ops) gid branchID branchType then ⟨ops, 0, none⟩
      else ⟨ops ++ [WriteOp.insertRow ⟨transType, gid, branchID, branchType, reason, none⟩], 1, none⟩

/-- The `originType` map lookup of `ThroughBarrierCall`: the map literal
binds `cancel` to `try` and `compensate` to `action`, and indexing a Go map
at a missing key yields the zero value `""`. -/
def originTypeOf (branchType : String) : String :=
  if branchType = "cancel" then "try"
  else if branchType = "compensate" then "action"
  else ""


/-- Outcome of invoking the business callback `busiCall(db)`.  Because the
Go code hands the callback the raw `*sql.DB` (not the barrier's `tx`), a
callback's writes act directly on the committed rows; it may also return a
value with an error, or panic. -/
inductive BusiOutcome where
  | ret (rows : List BarrierRow) (v : GoValue) (err : Option String)
  | panicked (p : String)

/-- Which database handle a callback receives: the raw database connection
(`*sql.DB`) or the barrier's open transaction (`*sql.Tx`). -/
inductive Handle where
  | db
  | tx
deriving DecidableEq

/-- The external environment of one `ThroughBarrierCall` invocation: the
driver errors injected at each of the five fallible store interactions
(`db.BeginTx`, the poison-claim `Exec`, the own-claim `Exec`, the point
query's `Scan`, the result-`update` `Exec`), the business callback, the
result serializer and the result deserializer.

`marshal` models `common.MustMarshalString` — repository code not under
src/.  Modelled from the spec: serialization of the business result for
caching can fail (`SerializationError` — "business result could not be
serialized for caching; surfaced, atomic unit rolled back"), and, per the
Go `Must` naming convention, such a failure surfaces as a panic carrying
the serialization error rather than as a returned error value.

`unmarshal` models `encoding/json.Unmarshal` into an interface variable:
it yields either the decoded value or a decoding error. -/
structure Env where
  beginErr : Option String
  poisonClaimErr : Option String
  ownClaimErr : Option String
  queryErr : Option String
  updateErr : Option String
  busi : List BarrierRow → BusiOutcome
  marshal : GoValue → Except String String
  unmarshal : String → Except String GoValue

/-- The value the Go statement `res = json.Unmarshal([]byte(s), &res)`
leaves in `res`: `json.Unmarshal` first stores the decoded value through
the pointer, then its `error` return value is assigned to `res`,
overwriting the decoded value — `nil` when decoding succeeded, the error
value when it failed. -/
def unmarshalAssigned (env : Env) (s : String) : GoValue :=
  match env.unmarshal s with
  | .ok _ => GoValue.nil
  | .error m => GoValue.errV m

/-- What the body of `ThroughBarrierCall` (everything between `BeginTx` and
the deferred commit/rollback) produced: the named returns `res`/`rerr`, the
transaction's pending writes, the committed rows after any direct-on-`db`
callback writes, and whether/with which handle the callback ran. -/
structure BodyResult where
  res : GoValue
  rerr : Option String
  ops : List WriteOp
  committed : List BarrierRow
  busiCalled : Bool
  busiHandle : Option Handle
deriving DecidableEq

/-- Body termination: normal return, or a panic unwinding towards the
deferred recover. -/
inductive BodyOut where
  | ret (r : BodyResult)
  | panicked (p : String) (ops : List WriteOp) (committed : List BarrierRow)
      (busiCalled : Bool) (busiHandle : Option Handle)
deriving DecidableEq

/-- Lines 104–135 of `barrier.go`: the part of the body of
`ThroughBarrierCall` after the poison claim, which reaches the poison claim
only through `ops1` (its pending writes) and `originAffected` (its
affected-row count) — the Go code discards the poison claim's error
(`originAffected, _ := ...`).

* the own claim's error is assigned to the named return `rerr`;
* the synthetic branches return with `rerr` still holding that value;
* in the `currentAffected == 0` branch, `sql.ErrNoRows` selects the
  suspension branch, any other query error overwrites `rerr`, a found row
  with non-NULL `result` runs the `res = json.Unmarshal(...)` assignment,
  and a found row with NULL `result` returns synthetic success;
* otherwise `busiCall(db)` runs against the raw database handle, and on
  its success the result is serialized by `common.MustMarshalString` and
  attached via the four-column `update`. -/
def ThroughBarrierRest (env : Env) (ti : TransInfo) (committed : List BarrierRow)
    (ops1 : List WriteOp) (originAffected : Int) : BodyOut :=
  let c2 := insertBarrier env.ownClaimErr committed ops1 ti.TransType ti.Gid ti.BranchID ti.BranchType ti.BranchType
  if (ti.BranchType = "cancel" ∨ ti.BranchType = "compensate") ∧ originAffected > 0 then
    .ret ⟨dtmResultSuccess, c2.err, c2.ops, committed, false, none⟩
  else if c2.affected = 0 then
    match env.queryErr with
    | some e => .ret ⟨GoValue.nil, some e, c2.ops, committed, false, none⟩
    | none =>
      match lookupResult (applyOps committed c2.ops) ti.TransType ti.Gid ti.BranchID ti.BranchType ti.BranchType with
      | none => .ret ⟨dtmResultFailure, c2.err, c2.ops, committed, false, none⟩
      | some none => .ret ⟨dtmResultSuccess, c2.err, c2.ops, committed, false, none⟩
      | some (some s) => .ret ⟨unmarshalAssigned env s, c2.err, c2.ops, committed, false, none⟩
  else
    match env.busi committed with
    | .panicked p => .panicked p c2.ops committed true (some Handle.db)
    | .ret committed2 v berr =>
      match berr with
      | some e => .ret ⟨v, some e, c2.ops, committed2, true, some Handle.db⟩
      | none =>
        match env.marshal v with
        | .error m => .panicked m c2.ops committed2 true (some Handle.db)
        | .ok sval =>
          match env.updateErr with
          | some e => .ret ⟨v, some e, c2.ops, committed2, true, some Handle.db⟩
          | none =>
            .ret ⟨v, none,
              c2.ops ++ [WriteOp.updateResult ti.TransType ti.Gid ti.BranchID ti.BranchType sval],
              committed2, true, some Handle.db⟩

/-- Lines 98–135 of `barrier.go`: the body of `ThroughBarrierCall` running
inside the open transaction — the `originType` map lookup, the poison claim
(`originAffected, _ := insertBarrier(tx, ..., originType, ti.BranchType)`,
its error discarded), and the rest of the decision. -/
def ThroughBarrierBody (env : Env) (ti : TransInfo) (committed : List BarrierRow) : BodyOut :=
  let originType := originTypeOf ti.BranchType
  let c1 := insertBarrier env.poisonClaimErr committed [] ti.TransType ti.Gid ti.BranchID originType ti.BranchType
  ThroughBarrierRest env ti committed c1.ops c1.affected

/-- Overall observable outcome of `ThroughBarrierCall`: a normal return of
`(res, rerr)`, or a re-raised panic. -/
inductive Outcome where
  | ret (res : GoValue) (err : Option String)
  | panicked (p : String)
deriving DecidableEq

/-- Everything observable about one `ThroughBarrierCall` invocation. -/
structure Output where
  outcome : Outcome
  committed : List BarrierRow
  busiCalled : Bool
  busiHandle : Option Handle
deriving DecidableEq

/-- Full `ThroughBarrierCall`: `db.BeginTx` (returning its error directly
on failure, before any claim), then the body, then the deferred function —
on a panic, roll back (drop the pending writes) and re-raise the same
panic; on `rerr != nil`, roll back; otherwise commit (apply the pending
writes to the committed rows). -/
def ThroughBarrierCall (env : Env) (ti : TransInfo) (committed : List BarrierRow) : Output :=
  match env.beginErr with
  | some e => ⟨Outcome.ret GoValue.nil (some e), committed, false, none⟩
  | none =>
    match ThroughBarrierBody env ti committed with
    | .panicked p _ c bc bh => ⟨Outcome.panicked p, c, bc, bh⟩
    | .ret r =>
      match r.rerr with
      | some e => ⟨Outcome.ret r.res (some e), r.committed, r.busiCalled, r.busiHandle⟩
      | none => ⟨Outcome.ret r.res none, applyOps r.committed r.ops, r.busiCalled, r.busiHandle⟩

/-! ## Concrete environments used as test inputs -/

/-- A benign environment: no driver faults, a callback returning a string
result, serialization succeeding, deserialization decoding a string `s` to
`GoValue.str s`. -/
def envOK : Env :=
  ⟨none, none, none, none, none,
    fun rows => BusiOutcome.ret rows (GoValue.str "busi") none,
    fun _ => Except.ok "sv", fun s => Except.ok (GoValue.str s)⟩

/-- An environment whose business callback panics. -/
def envPanic : Env :=
  ⟨none, none, none, none, none,
    fun _ => BusiOutcome.panicked "boom",
    fun _ => Except.ok "sv", fun s => Except.ok (GoValue.str s)⟩

/-- An environment where `db.BeginTx` fails. -/
def envBeginFail : Env :=
  ⟨some "begin failed", none, none, none, none,
    fun rows => BusiOutcome.ret rows (GoValue.str "busi") none,
    fun _ => Except.ok "sv", fun s => Except.ok (GoValue.str s)⟩

/-- An environment where the callback succeeds but serialization of its
result fails. -/
def envMarshalFail : Env :=
  ⟨none, none, none, none, none,
    fun rows => BusiOutcome.ret rows (GoValue.str "busi") none,
    fun _ => Except.error "cannot marshal", fun s => Except.ok (GoValue.str s)⟩

/-- An environment where the poison-claim `Exec` fails with a store error. -/
def envPoisonFault : Env :=
  ⟨none, some "disk failure", none, none, none,
    fun rows => BusiOutcome.ret rows (GoValue.str "ok") none,
    fun _ => Except.ok "sv", fun s => Except.ok (GoValue.str s)⟩

/-- An environment where the business callback writes a row of its own
directly through the raw database handle it was given, and the later
result-`update` inside the barrier transaction fails. -/
def envUpdateFault : Env :=
  ⟨none, none, none, none, some "update failed",
    fun rows => BusiOutcome.ret (rows ++ [⟨"busi", "g-busi", "b-busi", "row", "r", none⟩])
      (GoValue.str "ok") none,
    fun _ => Except.ok "sv", fun s => Except.ok (GoValue.str s)⟩

/-! ## Helper lemmas -/

/-- A no-op claim leaves the pending writes untouched. -/
theorem insertBarrier_empty_branchType (fault : Option String) (committed : List BarrierRow)
    (ops : List WriteOp) (transType gid branchID reason : String) :
    insertBarrier fault committed ops transType gid branchID "" reason = ⟨ops, 0, none⟩ := rfl

/-! ## Claims -/

/-- Claim C9: a call to the claim operation with an empty role slot
(`branchType == ""`) returns affected count 0 and no error, and performs no
storage operation (the pending writes are unchanged and the fault oracle is
never consulted — the result is the same for every `fault`). -/
theorem noop_claim_empty_roleSlot (fault : Option String) (committed : List BarrierRow)
    (ops : List WriteOp) (transType gid branchID reason : String) :
    insertBarrier fault committed ops transType gid branchID "" reason = ⟨ops, 0, none⟩ := rfl

/-- Claim C10: for every branch type other than `cancel` and `compensate` —
including `confirm` and any unrecognized string — the counterpart origin
slot computed in Step 1 is the empty string, so the poison-claim step
performs no storage write and yields affected count 0 with no error. -/
theorem origin_slot_empty_for_non_compensating (bt : String)
    (h1 : bt ≠ "cancel") (h2 : bt ≠ "compensate") :
    originTypeOf bt = "" ∧
    ∀ (fault : Option String) (committed : List BarrierRow) (ops : List WriteOp)
      (transType gid branchID reason : String),
      insertBarrier fault committed ops transType gid branchID (originTypeOf bt) reason
        = ⟨ops, 0, none⟩ := by
  have h : originTypeOf bt = "" := by simp [originTypeOf, h1, h2]
  refine ⟨h, ?_⟩
  intro fault committed ops transType gid branchID reason
  rw [h]
  rfl

/-- Witness for C10 at the concrete branch type `confirm`. -/
theorem origin_slot_empty_for_non_compensating_witness :
    originTypeOf "confirm" = "" ∧
    insertBarrier none [] [] "tcc" "g1" "b1" (originTypeOf "confirm") "confirm"
      = ⟨[], 0, none⟩ := by
  have h := origin_slot_empty_for_non_compensating "confirm" (by decide) (by decide)
  exact ⟨h.1, h.2 none [] [] "tcc" "g1" "b1" "confirm"⟩

/-- Claim C8: construction of the branch context fails (the Go code panics,
modelled as `Except.error`) whenever any of the four fields is empty, purely
from the request values and before any storage interaction (the function
takes and returns no store state); with all four fields non-empty it
succeeds and returns exactly those fields. -/
theorem transInfoFromReq_validates (t g b bt : String) :
    ((t = "" ∨ g = "" ∨ b = "" ∨ bt = "") →
      TransInfoFromReq t g b bt
        = .error ("invlid trans info: " ++ TransInfo.string ⟨t, g, b, bt⟩)) ∧
    (t ≠ "" → g ≠ "" → b ≠ "" → bt ≠ "" →
      TransInfoFromReq t g b bt = .ok ⟨t, g, b, bt⟩) := by
  refine ⟨fun h => ?_, fun h1 h2 h3 h4 => ?_⟩
  · unfold TransInfoFromReq
    exact if_pos h
  · unfold TransInfoFromReq
    exact if_neg (by simp [h1, h2, h3, h4])

/-- Witness for C8: a rejected and an accepted concrete request. -/
theorem transInfoFromReq_validates_witness :
    TransInfoFromReq "" "g1" "b1" "try"
      = .error ("invlid trans info: " ++ TransInfo.string ⟨"", "g1", "b1", "try"⟩) ∧
    TransInfoFromReq "tcc" "g1" "b1" "try" = .ok ⟨"tcc", "g1", "b1", "try"⟩ :=
  ⟨(transInfoFromReq_validates "" "g1" "b1" "try").1 (Or.inl rfl),
   (transInfoFromReq_validates "tcc" "g1" "b1" "try").2
     (by decide) (by decide) (by decide) (by decide)⟩

/-- Claim C2: a forward call (`try` or `action`) whose own-slot claim
returns 0 (a row for its key already exists) and whose reason-filtered
lookup finds no row is a suspension: `ThroughBarrierCall` returns the
synthetic failure payload with no error and never invokes the business
callback. -/
theorem suspension_returns_failure (env : Env) (ti : TransInfo) (committed : List BarrierRow)
    (hbegin : env.beginErr = none)
    (hpoison : env.poisonClaimErr = none)
    (hown : env.ownClaimErr = none)
    (hquery : env.queryErr = none)
    (hbt : ti.BranchType = "try" ∨ ti.BranchType = "action")
    (hslot : hasRow committed ti.Gid ti.BranchID ti.BranchType = true)
    (hmiss : lookupResult committed ti.TransType ti.Gid ti.BranchID ti.BranchType ti.BranchType
      = none) :
    (ThroughBarrierCall env ti committed).outcome = Outcome.ret dtmResultFailure none ∧
    (ThroughBarrierCall env ti committed).busiCalled = false := by
  have hc1 : ti.BranchType ≠ "cancel" := by rcases hbt with h | h <;> simp [h]
  have hc2 : ti.BranchType ≠ "compensate" := by rcases hbt with h | h <;> simp [h]
  have hne : ti.BranchType ≠ "" := by rcases hbt with h | h <;> simp [h]
  have horig : originTypeOf ti.BranchType = "" := by simp [originTypeOf, hc1, hc2]
  simp [ThroughBarrierCall, ThroughBarrierBody, ThroughBarrierRest, insertBarrier, applyOps, horig,
    hc1, hc2, hne, hbegin, hpoison, hown, hquery, hslot, hmiss]

/-- Witness for C2: a concrete `try` arriving after its slot was poisoned
by a `cancel` (stored reason `cancel`, so the `try`-reason lookup misses). -/
theorem suspension_returns_failure_witness :
    (ThroughBarrierCall
        ⟨none, none, none, none, none,
          fun rows => BusiOutcome.ret rows (GoValue.str "busi") none,
          fun _ => Except.ok "sv", fun s => Except.ok (GoValue.str s)⟩
        ⟨"tcc", "g1", "b1", "try"⟩
        [⟨"tcc", "g1", "b1", "try", "cancel", none⟩]).outcome
      = Outcome.ret dtmResultFailure none ∧
    (ThroughBarrierCall
        ⟨none, none, none, none, none,
          fun rows => BusiOutcome.ret rows (GoValue.str "busi") none,
          fun _ => Except.ok "sv", fun s => Except.ok (GoValue.str s)⟩
        ⟨"tcc", "g1", "b1", "try"⟩
        [⟨"tcc", "g1", "b1", "try", "cancel", none⟩]).busiCalled = false :=
  suspension_returns_failure _ _ _ rfl rfl rfl rfl (Or.inl rfl) (by decide) (by decide)

/-- Claim C3: null compensation.  For a `cancel`/`compensate` call,
(a) if the poison claim on the counterpart forward slot succeeds (no row
for that key yet, so affected count 1), the call returns synthetic success
with no error and the callback is not invoked; and (b) a second identical
call — own-slot claim returning 0 because the own row exists, the origin
row also existing, and the stored own row carrying a NULL result payload —
also returns synthetic success (not failure), again without invoking the
callback. -/
theorem null_compensation_returns_success (env : Env) (ti : TransInfo)
    (hbegin : env.beginErr = none)
    (hpoison : env.poisonClaimErr = none)
    (hown : env.ownClaimErr = none)
    (hquery : env.queryErr = none)
    (hbt : ti.BranchType = "cancel" ∨ ti.BranchType = "compensate") :
    ∀ committed : List BarrierRow,
      (hasRow committed ti.Gid ti.BranchID (originTypeOf ti.BranchType) = false →
        (ThroughBarrierCall env ti committed).outcome = Outcome.ret dtmResultSuccess none ∧
        (ThroughBarrierCall env ti committed).busiCalled = false) ∧
      (hasRow committed ti.Gid ti.BranchID (originTypeOf ti.BranchType) = true →
        hasRow committed ti.Gid ti.BranchID ti.BranchType = true →
        lookupResult committed ti.TransType ti.Gid ti.BranchID ti.BranchType ti.BranchType
          = some none →
        (ThroughBarrierCall env ti committed).outcome = Outcome.ret dtmResultSuccess none ∧
        (ThroughBarrierCall env ti committed).busiCalled = false) := by
  intro committed
  constructor
  · intro hA
    rcases hbt with h | h <;>
      (simp [h, originTypeOf] at hA
       simp [ThroughBarrierCall, ThroughBarrierBody, ThroughBarrierRest, insertBarrier, applyOps, originTypeOf,
         hbegin, hpoison, hown, hquery, h, hA, apply_ite])
  · intro hB1 hB2 hB3
    rcases hbt with h | h <;>
      (simp [h, originTypeOf] at hB1
       simp [h] at hB2 hB3
       simp [ThroughBarrierCall, ThroughBarrierBody, ThroughBarrierRest, insertBarrier, applyOps, originTypeOf,
         hbegin, hpoison, hown, hquery, h, hB1, hB2, hB3, apply_ite])

/-- Witness for C3: a first `cancel` on an empty store (part a) and the
identical second `cancel` against the rows that first call committed
(part b). -/
theorem null_compensation_returns_success_witness :
    ((ThroughBarrierCall envOK ⟨"tcc", "g2", "b1", "cancel"⟩ []).outcome
        = Outcome.ret dtmResultSuccess none ∧
      (ThroughBarrierCall envOK ⟨"tcc", "g2", "b1", "cancel"⟩ []).busiCalled = false) ∧
    ((ThroughBarrierCall envOK ⟨"tcc", "g2", "b1", "cancel"⟩
          [⟨"tcc", "g2", "b1", "try", "cancel", none⟩,
           ⟨"tcc", "g2", "b1", "cancel", "cancel", none⟩]).outcome
        = Outcome.ret dtmResultSuccess none ∧
      (ThroughBarrierCall envOK ⟨"tcc", "g2", "b1", "cancel"⟩
          [⟨"tcc", "g2", "b1", "try", "cancel", none⟩,
           ⟨"tcc", "g2", "b1", "cancel", "cancel", none⟩]).busiCalled = false) :=
  ⟨(null_compensation_returns_success envOK ⟨"tcc", "g2", "b1", "cancel"⟩
      rfl rfl rfl rfl (Or.inl rfl) []).1 (by decide),
   (null_compensation_returns_success envOK ⟨"tcc", "g2", "b1", "cancel"⟩
      rfl rfl rfl rfl (Or.inl rfl)
      [⟨"tcc", "g2", "b1", "try", "cancel", none⟩,
       ⟨"tcc", "g2", "b1", "cancel", "cancel", none⟩]).2
     (by decide) (by decide) (by decide)⟩

/-- Claim C5: the transactional executor.  A `BeginTx` failure returns the
begin error before any claim (store untouched, callback never invoked);
when the body panics, the pending transaction writes are discarded
(rollback) and the very same panic is re-raised; when the body returns with
a non-nil error, the pending writes are discarded (rollback); when the body
returns with no error — including the synthetic success/failure outcomes —
the pending writes are applied to the committed rows (commit). -/
theorem transactional_executor (env : Env) (ti : TransInfo) (committed : List BarrierRow) :
    (∀ e, env.beginErr = some e →
      ThroughBarrierCall env ti committed
        = ⟨Outcome.ret GoValue.nil (some e), committed, false, none⟩) ∧
    (env.beginErr = none →
      (∀ p ops c bc bh, ThroughBarrierBody env ti committed = BodyOut.panicked p ops c bc bh →
        ThroughBarrierCall env ti committed = ⟨Outcome.panicked p, c, bc, bh⟩) ∧
      (∀ r, ThroughBarrierBody env ti committed = BodyOut.ret r →
        (∀ e, r.rerr = some e →
          ThroughBarrierCall env ti committed
            = ⟨Outcome.ret r.res (some e), r.committed, r.busiCalled, r.busiHandle⟩) ∧
        (r.rerr = none →
          ThroughBarrierCall env ti committed
            = ⟨Outcome.ret r.res none, applyOps r.committed r.ops, r.busiCalled, r.busiHandle⟩))) := by
  refine ⟨fun e he => ?_,
    fun hb => ⟨fun p ops c bc bh hB => ?_, fun r hB => ⟨fun e he' => ?_, fun he' => ?_⟩⟩⟩
  · simp [ThroughBarrierCall, he]
  · simp [ThroughBarrierCall, hb, hB]
  · simp [ThroughBarrierCall, hb, hB, he']
  · simp [ThroughBarrierCall, hb, hB, he']

/-- Witness for C5: a panicking callback (rollback plus re-raised panic)
and a failing `BeginTx` (error returned, store untouched). -/
theorem transactional_executor_witness :
    ThroughBarrierCall envPanic ⟨"tcc", "g5", "b1", "try"⟩ []
      = ⟨Outcome.panicked "boom", [], true, some Handle.db⟩ ∧
    ThroughBarrierCall envBeginFail ⟨"tcc", "g5", "b1", "try"⟩ []
      = ⟨Outcome.ret GoValue.nil (some "begin failed"), [], false, none⟩ :=
  ⟨((transactional_executor envPanic ⟨"tcc", "g5", "b1", "try"⟩ []).2 rfl).1
      "boom" [WriteOp.insertRow ⟨"tcc", "g5", "b1", "try", "try", none⟩] [] true
      (some Handle.db) (by decide),
   (transactional_executor envBeginFail ⟨"tcc", "g5", "b1", "try"⟩ []).1 "begin failed" rfl⟩

/-- On a first genuine arrival (forward-style branch, fresh own slot), the
business callback is invoked, whatever it and the later steps then do. -/
theorem busi_called_of_first_arrival (env : Env) (ti : TransInfo) (committed : List BarrierRow)
    (hbegin : env.beginErr = none) (hown : env.ownClaimErr = none)
    (horig : originTypeOf ti.BranchType = "") (hne : ti.BranchType ≠ "")
    (hfresh : hasRow committed ti.Gid ti.BranchID ti.BranchType = false) :
    (ThroughBarrierCall env ti committed).busiCalled = true := by
  have hc1 : ti.BranchType ≠ "cancel" := by
    intro hc; rw [hc] at horig; simp [originTypeOf] at horig
  have hc2 : ti.BranchType ≠ "compensate" := by
    intro hc; rw [hc] at horig; simp [originTypeOf] at horig
  rcases hb : env.busi committed with ⟨r2, v2, e2⟩ | p
  · rcases e2 with _ | e
    · rcases hm : env.marshal v2 with m | s
      · simp [ThroughBarrierCall, ThroughBarrierBody, ThroughBarrierRest, insertBarrier, applyOps, horig, hbegin,
          hown, hc1, hc2, hne, hfresh, hb, hm]
      · rcases hu : env.updateErr with _ | e
        · simp [ThroughBarrierCall, ThroughBarrierBody, ThroughBarrierRest, insertBarrier, applyOps, horig, hbegin,
            hown, hc1, hc2, hne, hfresh, hb, hm, hu]
        · simp [ThroughBarrierCall, ThroughBarrierBody, ThroughBarrierRest, insertBarrier, applyOps, horig, hbegin,
            hown, hc1, hc2, hne, hfresh, hb, hm, hu]
    · simp [ThroughBarrierCall, ThroughBarrierBody, ThroughBarrierRest, insertBarrier, applyOps, horig, hbegin,
        hown, hc1, hc2, hne, hfresh, hb]
  · simp [ThroughBarrierCall, ThroughBarrierBody, ThroughBarrierRest, insertBarrier, applyOps, horig, hbegin,
      hown, hc1, hc2, hne, hfresh, hb]

/-- Claim C6: when the callback succeeds but serialization of its result
fails, the serialization fault is surfaced (as the re-raised panic carrying
it, per the `Must` serializer modelled from the spec) and the atomic unit
is rolled back: the committed rows are exactly what the callback itself
wrote, the own-slot claim does not persist, and a later retry against the
resulting store re-invokes the callback instead of returning a cached
state. -/
theorem serialization_failure_rolls_back (env : Env) (ti : TransInfo)
    (committed rows2 : List BarrierRow) (v : GoValue) (m : String)
    (hbegin : env.beginErr = none) (hown : env.ownClaimErr = none)
    (horig : originTypeOf ti.BranchType = "") (hne : ti.BranchType ≠ "")
    (hfresh : hasRow committed ti.Gid ti.BranchID ti.BranchType = false)
    (hbusi : env.busi committed = BusiOutcome.ret rows2 v none)
    (hmarshal : env.marshal v = Except.error m)
    (hfresh2 : hasRow rows2 ti.Gid ti.BranchID ti.BranchType = false) :
    (ThroughBarrierCall env ti committed).outcome = Outcome.panicked m ∧
    (ThroughBarrierCall env ti committed).committed = rows2 ∧
    hasRow (ThroughBarrierCall env ti committed).committed ti.Gid ti.BranchID ti.BranchType
      = false ∧
    (ThroughBarrierCall env ti rows2).busiCalled = true := by
  have hc1 : ti.BranchType ≠ "cancel" := by
    intro hc; rw [hc] at horig; simp [originTypeOf] at horig
  have hc2 : ti.BranchType ≠ "compensate" := by
    intro hc; rw [hc] at horig; simp [originTypeOf] at horig
  have hmain : ThroughBarrierCall env ti committed
      = ⟨Outcome.panicked m, rows2, true, some Handle.db⟩ := by
    simp [ThroughBarrierCall, ThroughBarrierBody, ThroughBarrierRest, insertBarrier, applyOps, horig, hbegin, hown,
      hc1, hc2, hne, hfresh, hbusi, hmarshal]
  rw [hmain]
  exact ⟨rfl, rfl, hfresh2,
    busi_called_of_first_arrival env ti rows2 hbegin hown horig hne hfresh2⟩

/-- Witness for C6: a fresh `try` whose callback returns a value the
serializer rejects. -/
theorem serialization_failure_rolls_back_witness :
    (ThroughBarrierCall envMarshalFail ⟨"tcc", "g6", "b1", "try"⟩ []).outcome
      = Outcome.panicked "cannot marshal" ∧
    (ThroughBarrierCall envMarshalFail ⟨"tcc", "g6", "b1", "try"⟩ []).committed = [] ∧
    hasRow (ThroughBarrierCall envMarshalFail ⟨"tcc", "g6", "b1", "try"⟩ []).committed
      "g6" "b1" "try" = false ∧
    (ThroughBarrierCall envMarshalFail ⟨"tcc", "g6", "b1", "try"⟩ []).busiCalled = true :=
  serialization_failure_rolls_back envMarshalFail ⟨"tcc", "g6", "b1", "try"⟩ [] []
    (GoValue.str "busi") "cannot marshal" rfl rfl (by decide) (by decide) (by decide)
    rfl rfl (by decide)

/-- When the role slot is empty or its row already exists in the
transaction's view, a claim leaves the pending writes unchanged and
reports 0 affected rows, whatever its driver fault is — only its error
field can differ. -/
theorem insertBarrier_ops_affected (f : Option String) (committed : List BarrierRow)
    (ops : List WriteOp) (t g b bt r : String)
    (h : bt = "" ∨ hasRow (applyOps committed ops) g b bt = true) :
    (insertBarrier f committed ops t g b bt r).ops = ops ∧
    (insertBarrier f committed ops t g b bt r).affected = 0 := by
  rcases h with h | h
  · subst h; simp [insertBarrier]
  · cases f <;> by_cases h0 : bt = "" <;> simp [insertBarrier, h0, h]

/-- Counterexample to C7 as stated: with the poison-claim `Exec` failing
with the store error `disk failure` on a fresh `cancel`, the error is not
surfaced (the call returns the callback's result with no error, and
commits) and the business callback is invoked. -/
theorem poison_claim_store_error_not_surfaced :
    envPoisonFault.poisonClaimErr = some "disk failure" ∧
    (ThroughBarrierCall envPoisonFault ⟨"tcc", "g7", "b1", "cancel"⟩ []).outcome
      = Outcome.ret (GoValue.str "ok") none ∧
    (ThroughBarrierCall envPoisonFault ⟨"tcc", "g7", "b1", "cancel"⟩ []).busiCalled = true := by
  decide

/-- Claim C7 (amended): the error of the first (anti-suspension poison)
claim is silently discarded, never surfaced.  (a) Whenever the counterpart
slot is the empty string or its row already exists, the whole call behaves
exactly as if the poison claim had returned no error; (b) when the poison
claim would have been the first claim of a fresh `cancel`/`compensate`
branch, execution continues as if it had affected 0 rows: the business
callback is still invoked and the call returns its result with no error. -/
theorem poison_claim_error_discarded (env : Env) (e : String) (ti : TransInfo)
    (committed : List BarrierRow)
    (hpoison : env.poisonClaimErr = some e) :
    (originTypeOf ti.BranchType = "" ∨
        hasRow committed ti.Gid ti.BranchID (originTypeOf ti.BranchType) = true →
      ThroughBarrierCall env ti committed
        = ThroughBarrierCall
            ⟨env.beginErr, none, env.ownClaimErr, env.queryErr, env.updateErr,
              env.busi, env.marshal, env.unmarshal⟩ ti committed) ∧
    (∀ rows2 v sval,
      env.beginErr = none → env.ownClaimErr = none → env.updateErr = none →
      (ti.BranchType = "cancel" ∨ ti.BranchType = "compensate") →
      hasRow committed ti.Gid ti.BranchID ti.BranchType = false →
      env.busi committed = BusiOutcome.ret rows2 v none →
      env.marshal v = Except.ok sval →
      (ThroughBarrierCall env ti committed).outcome = Outcome.ret v none ∧
      (ThroughBarrierCall env ti committed).busiCalled = true) := by
  constructor
  · intro h
    have h' : originTypeOf ti.BranchType = "" ∨
        hasRow (applyOps committed []) ti.Gid ti.BranchID (originTypeOf ti.BranchType) = true := by
      rcases h with h | h
      · exact Or.inl h
      · exact Or.inr (by simpa [applyOps] using h)
    have k1 := insertBarrier_ops_affected env.poisonClaimErr committed [] ti.TransType ti.Gid
      ti.BranchID (originTypeOf ti.BranchType) ti.BranchType h'
    have k2 := insertBarrier_ops_affected none committed [] ti.TransType ti.Gid
      ti.BranchID (originTypeOf ti.BranchType) ti.BranchType h'
    unfold ThroughBarrierCall ThroughBarrierBody
    dsimp only
    rw [k1.1, k1.2, k2.1, k2.2]
    rfl
  · intro rows2 v sval hbegin hown hupdate hbt hfresh hbusi hmarshal
    rcases hbt with h | h <;>
      (simp [h] at hfresh
       simp [ThroughBarrierCall, ThroughBarrierBody, ThroughBarrierRest, insertBarrier, applyOps, originTypeOf,
         hpoison, hbegin, hown, hupdate, h, hfresh, hbusi, hmarshal])

/-- Witness for the amended C7: a fresh `cancel` with a failing poison
claim still runs its callback and returns the callback's result. -/
theorem poison_claim_error_discarded_witness :
    (ThroughBarrierCall envPoisonFault ⟨"tcc", "g7", "b2", "cancel"⟩ []).outcome
      = Outcome.ret (GoValue.str "ok") none ∧
    (ThroughBarrierCall envPoisonFault ⟨"tcc", "g7", "b2", "cancel"⟩ []).busiCalled = true :=
  (poison_claim_error_discarded envPoisonFault "disk failure" ⟨"tcc", "g7", "b2", "cancel"⟩ []
      rfl).2 [] (GoValue.str "ok") "sv" rfl rfl rfl (Or.inl rfl) (by decide) rfl rfl

/-- Whenever the body records that the callback ran, the handle it records
is the raw database handle. -/
theorem body_handle_is_db (env : Env) (ti : TransInfo) (committed : List BarrierRow) :
    (∀ r, ThroughBarrierBody env ti committed = BodyOut.ret r →
      r.busiCalled = true → r.busiHandle = some Handle.db) ∧
    (∀ p ops c bc bh, ThroughBarrierBody env ti committed = BodyOut.panicked p ops c bc bh →
      bc = true → bh = some Handle.db) := by
  constructor
  · intro r hr hc
    simp only [ThroughBarrierBody, ThroughBarrierRest] at hr
    repeat' split at hr
    all_goals cases hr
    all_goals simp_all
  · intro p ops c bc bh hr hc
    simp only [ThroughBarrierBody, ThroughBarrierRest] at hr
    repeat' split at hr
    all_goals cases hr
    all_goals simp_all

/-- Counterexample to C4 as stated: the callback is handed the raw database
handle (`busiCall(db)`), not the barrier's transaction.  Here the callback
writes its own row through that handle and the barrier's later result
`update` fails, so the barrier transaction rolls back — yet the callback's
row persists in the committed rows while the barrier's own-slot claim is
gone: the callback's writes and the barrier bookkeeping did not commit or
roll back together. -/
theorem busi_write_survives_barrier_rollback :
    ThroughBarrierCall envUpdateFault ⟨"tcc", "g4", "b1", "try"⟩ []
      = ⟨Outcome.ret (GoValue.str "ok") (some "update failed"),
          [⟨"busi", "g-busi", "b-busi", "row", "r", none⟩], true, some Handle.db⟩ ∧
    hasRow (ThroughBarrierCall envUpdateFault ⟨"tcc", "g4", "b1", "try"⟩ []).committed
      "g4" "b1" "try" = false ∧
    Handle.db ≠ Handle.tx := by
  decide

/-- Claim C4 (amended): whenever the business callback is invoked, it is
invoked with the raw database handle, never with the barrier's transaction
handle — so its own writes act directly on the database and are not covered
by the commit/rollback of the barrier's atomic unit. -/
theorem busiCall_receives_db_not_tx (env : Env) (ti : TransInfo) (committed : List BarrierRow)
    (h : (ThroughBarrierCall env ti committed).busiCalled = true) :
    (ThroughBarrierCall env ti committed).busiHandle = some Handle.db := by
  unfold ThroughBarrierCall at h ⊢
  cases hbe : env.beginErr with
  | some e => rw [hbe] at h; simp at h
  | none =>
    rw [hbe] at h
    cases hB : ThroughBarrierBody env ti committed with
    | panicked p ops c bc bh =>
      rw [hB] at h
      exact (body_handle_is_db env ti committed).2 p ops c bc bh hB h
    | ret r =>
      rw [hB] at h
      cases hrr : r.rerr with
      | some e =>
        simp only [hrr] at h ⊢
        exact (body_handle_is_db env ti committed).1 r hB h
      | none =>
        simp only [hrr] at h ⊢
        exact (body_handle_is_db env ti committed).1 r hB h

/-- Witness for the amended C4: a fresh `try` whose callback runs receives
the raw database handle. -/
theorem busiCall_receives_db_not_tx_witness :
    (ThroughBarrierCall envOK ⟨"tcc", "g4", "b2", "try"⟩ []).busiHandle = some Handle.db :=
  busiCall_receives_db_not_tx envOK ⟨"tcc", "g4", "b2", "try"⟩ [] (by decide)

/-- Claim C1 (code-bug exhibit): with the own slot already claimed under
reason `try` and the stored row carrying the non-null result payload `R1`,
and a deserializer that decodes `R1` to the value `GoValue.str "R1"`,
`ThroughBarrierCall` does not invoke the callback but returns `nil` — the
statement `res = json.Unmarshal([]byte(result.String), &res)` assigns the
deserializer's `error` return (nil on success) to `res`, overwriting the
decoded value — instead of the deserialized cached result. -/
theorem replay_returns_unmarshal_error_value :
    envOK.unmarshal "R1" = Except.ok (GoValue.str "R1") ∧
    GoValue.str "R1" ≠ GoValue.nil ∧
    (ThroughBarrierCall envOK ⟨"tcc", "g1", "b1", "try"⟩
        [⟨"tcc", "g1", "b1", "try", "try", some "R1"⟩]).outcome
      = Outcome.ret GoValue.nil none ∧
    (ThroughBarrierCall envOK ⟨"tcc", "g1", "b1", "try"⟩
        [⟨"tcc", "g1", "b1", "try", "try", some "R1"⟩]).busiCalled = false :=
  ⟨rfl, by decide, by decide, by decide⟩
